import Mathlib

/-!
Verification development for a NetBox-to-Ansible dynamic inventory script
(`inventory.py`).  The script performs a sequence of HTTP GET calls against
a NetBox REST API and reshapes the responses into an Ansible dynamic
inventory JSON document.

The embedding below mirrors the source:

* API responses are modelled by `NetboxAPI`, a record of the (typed) data
  each endpoint would return, plus an HTTP status per endpoint string.
* Every network call is performed inside `ApiM`, a combined
  exception/trace monad: a computation takes the list of endpoints called
  so far and returns an `Except` (error = failing HTTP status, mirroring
  `response.raise_for_status()`) together with the extended call trace.
* Python `str.split('/')` (single-character separator) is embedded as
  `pySplit` on character lists; dictionaries keyed by strings are embedded
  as association lists with Python-dict insertion semantics (`dictInsert`).
* The final printed JSON document is modelled by the inductive `Json`.
-/

set_option maxHeartbeats 1000000

namespace NetboxInv

/-- A JSON-like document value.  Object fields are an ordered list of
key/value pairs, matching Python dict insertion order. -/
inductive Json where
  | null : Json
  | str : String → Json
  | num : Nat → Json
  | arr : List Json → Json
  | obj : List (String × Json) → Json

/-- A VLAN record as returned by the API: `{vid: <int>}`. -/
structure Vlan where
  vid : Nat
deriving DecidableEq

/-- An IP-address record (`{address: "<ip>/<mask>"}`); also the shape of a
device detail's nested `primary_ip` object. -/
structure IPAddr where
  address : String
deriving DecidableEq

/-- An interface record from `dcim/interfaces/?device_id=...`.
`tagged_vlans` is `none` for JSON null; `some []` models the empty list
(both are falsy in the Python truthiness test of the source). -/
structure Interface where
  id : Nat
  name : String
  tagged_vlans : Option (List Vlan)
  untagged_vlan : Option Vlan
deriving DecidableEq

/-- An entry of the `results` list of `dcim/devices`. -/
structure RawDevice where
  id : Nat
  name : String
deriving DecidableEq

/-- The custom-fields block of a device detail; the source reads the key
`ASN` (repurposed to carry an SSH port). -/
structure CustomFields where
  ASN : String
deriving DecidableEq

/-- The parts of a `dcim/devices/{id}` detail response the source reads.
`custom_fields = none` models any falsy custom-fields value (JSON null or
an empty mapping). -/
structure DeviceDetail where
  primary_ip : Option IPAddr
  custom_fields : Option CustomFields
deriving DecidableEq

/-- The data the NetBox server would serve, per endpoint, plus the HTTP
status code returned for each endpoint string. -/
structure NetboxAPI where
  devices : List RawDevice
  interfaces : Nat → List Interface
  ipAddresses : Nat → List IPAddr
  detail : Nat → DeviceDetail
  status : String → Nat

/-- The call monad: state is the trace of endpoints called so far; the
result is either a value or the HTTP status of a failed call. -/
def ApiM (α : Type) : Type := List String → Except Nat α × List String

/-- Return a value, performing no call. -/
def pureA {α : Type} (a : α) : ApiM α := fun l => (Except.ok a, l)

/-- Sequence two computations; an error short-circuits (as a raised
`HTTPError` does in the source). -/
def bindA {α β : Type} (m : ApiM α) (f : α → ApiM β) : ApiM β := fun l =>
  match m l with
  | (Except.ok a, l') => f a l'
  | (Except.error e, l') => (Except.error e, l')

/-- `requests` raises for status codes 400-599; codes below 400 pass. -/
def statusOk (s : Nat) : Bool := s < 400

/-- One HTTP GET (`_api_call` in the source): log the endpoint, raise
unless the status is OK, and return the endpoint's data. -/
def apiCall {α : Type} (api : NetboxAPI) (endpoint : String) (data : α) : ApiM α := fun l =>
  (if statusOk (api.status endpoint) then Except.ok data else Except.error (api.status endpoint),
   l ++ [endpoint])

/-- Endpoint string of `_device_list`. -/
def devicesEndpoint : String := "dcim/devices"

/-- Endpoint string of the device-detail calls. -/
def deviceEndpoint (device_id : Nat) : String := "dcim/devices/" ++ Nat.repr device_id

/-- Endpoint string of `_device_interfaces`. -/
def interfacesEndpoint (device_id : Nat) : String :=
  "dcim/interfaces/?device_id=" ++ Nat.repr device_id

/-- Endpoint string of `_interface_ip`. -/
def ipEndpoint (interface_id : Nat) : String :=
  "ipam/ip-addresses/?interface_id=" ++ Nat.repr interface_id

/-- Python `s.split(sep)` for a single-character separator: splits on every
occurrence, keeping empty segments, and returns at least one segment. -/
def pySplit (sep : Char) : List Char → List (List Char)
  | [] => [[]]
  | c :: rest =>
    if c = sep then [] :: pySplit sep rest
    else
      match pySplit sep rest with
      | [] => [[c]]
      | g :: gs => (c :: g) :: gs

/-- The source's `address.split('/')[0]`: netmask stripping. -/
def stripMask (s : String) : String := String.mk ((pySplit '/' s.toList).headD [])

/-- `_device_list`: GET `dcim/devices`, returning its `results`. -/
def _device_list (api : NetboxAPI) : ApiM (List RawDevice) :=
  apiCall api devicesEndpoint api.devices

/-- `_device_interfaces`: GET the interfaces of one device. -/
def _device_interfaces (api : NetboxAPI) (device_id : Nat) : ApiM (List Interface) :=
  apiCall api (interfacesEndpoint device_id) (api.interfaces device_id)

/-- `_interface_ip`: GET the IP addresses bound to one interface. -/
def _interface_ip (api : NetboxAPI) (interface_id : Nat) : ApiM (List IPAddr) :=
  apiCall api (ipEndpoint interface_id) (api.ipAddresses interface_id)

/-- The pure body of `_device_primary_ip`: strip the mask if a primary IP
is present, else `None`. -/
def primaryIpOf (d : DeviceDetail) : Option String :=
  match d.primary_ip with
  | some p => some (stripMask p.address)
  | none => none

/-- `_device_primary_ip`: GET the device detail and extract the management
address. -/
def _device_primary_ip (api : NetboxAPI) (device_id : Nat) : ApiM (Option String) :=
  bindA (apiCall api (deviceEndpoint device_id) (api.detail device_id)) fun d =>
    pureA (primaryIpOf d)

/-- The pure body of `_device_ssh_port`: the `ASN` custom field if the
custom-fields block is truthy, else `None`. -/
def sshPortOf (d : DeviceDetail) : Option String :=
  match d.custom_fields with
  | some cf => some cf.ASN
  | none => none

/-- `_device_ssh_port`: GET the device detail and extract the repurposed
`ASN` custom field. -/
def _device_ssh_port (api : NetboxAPI) (device_id : Nat) : ApiM (Option String) :=
  bindA (apiCall api (deviceEndpoint device_id) (api.detail device_id)) fun d =>
    pureA (sshPortOf d)

/-- The per-interface VLAN record built by `_process_interface_vlans`:
`{interface, int_id, untagged_vlan, tagged_vlans}`. -/
structure VlanMap where
  interface : String
  int_id : Nat
  untagged_vlan : Option Nat
  tagged_vlans : List Nat
deriving DecidableEq

/-- The loop body of `_process_interface_vlans`: a falsy `tagged_vlans`
(null or empty) yields `[]`; a falsy `untagged_vlan` yields `None`. -/
def vlanMapOf (itf : Interface) : VlanMap :=
  { interface := itf.name
  , int_id := itf.id
  , untagged_vlan := itf.untagged_vlan.map Vlan.vid
  , tagged_vlans := (itf.tagged_vlans.getD []).map Vlan.vid }

/-- `_process_interface_vlans`: fetch the device's interfaces and build
one `VlanMap` per interface, in order. -/
def _process_interface_vlans (api : NetboxAPI) (device_id : Nat) : ApiM (List VlanMap) :=
  bindA (_device_interfaces api device_id) fun interfaces =>
    pureA (interfaces.map vlanMapOf)

/-- Sequential effectful map, embedding the source's for-append loops. -/
def mapA {α β : Type} (f : α → ApiM β) : List α → ApiM (List β)
  | [] => pureA []
  | a :: as => bindA (f a) fun b => bindA (mapA f as) fun bs => pureA (b :: bs)

/-- The `interface_hash` of `_process_devices`:
`{interface_name, interface_id, ip_address}` (IP records passed through). -/
structure InterfaceHash where
  interface_name : String
  interface_id : Nat
  ip_address : List IPAddr
deriving DecidableEq

/-- Build one `interface_hash` from an interface and its fetched IPs. -/
def interfaceHashOf (itf : Interface) (ips : List IPAddr) : InterfaceHash :=
  { interface_name := itf.name, interface_id := itf.id, ip_address := ips }

/-- The inner loop body of `_process_devices`: fetch the interface's IPs
and build its `interface_hash`. -/
def processInterface (api : NetboxAPI) (itf : Interface) : ApiM InterfaceHash :=
  bindA (_interface_ip api itf.id) fun ips => pureA (interfaceHashOf itf ips)

/-- The `device_hash` of `_process_devices`. -/
structure DeviceHash where
  id : Nat
  ansible_ssh_host : Option String
  ansible_ssh_port : Option String
  name : String
  interfaces : List InterfaceHash
  vlans : List VlanMap
deriving DecidableEq

/-- The outer loop body of `_process_devices`, with the source's call
order: interfaces, VLAN pass, primary IP, SSH port, then per-interface IP
addresses. -/
def processDevice (api : NetboxAPI) (device : RawDevice) : ApiM DeviceHash :=
  bindA (_device_interfaces api device.id) fun interfaces =>
  bindA (_process_interface_vlans api device.id) fun vlans =>
  bindA (_device_primary_ip api device.id) fun device_ip =>
  bindA (_device_ssh_port api device.id) fun device_ssh_port =>
  bindA (mapA (processInterface api) interfaces) fun int_list =>
  pureA
    { id := device.id
    , ansible_ssh_host := device_ip
    , ansible_ssh_port := device_ssh_port
    , name := device.name
    , interfaces := int_list
    , vlans := vlans }

/-- `_process_devices`: fetch the device list, then enrich each device. -/
def _process_devices (api : NetboxAPI) : ApiM (List DeviceHash) :=
  bindA (_device_list api) fun devices => mapA (processDevice api) devices

/-- The value `_process_devices` returns on an all-successful run: one
`DeviceHash` per raw device. -/
def deviceHashOf (api : NetboxAPI) (device : RawDevice) : DeviceHash :=
  { id := device.id
  , ansible_ssh_host := primaryIpOf (api.detail device.id)
  , ansible_ssh_port := sshPortOf (api.detail device.id)
  , name := device.name
  , interfaces := (api.interfaces device.id).map
      (fun itf => interfaceHashOf itf (api.ipAddresses itf.id))
  , vlans := (api.interfaces device.id).map vlanMapOf }

/-- All device hashes of a successful run. -/
def devices_val (api : NetboxAPI) : List DeviceHash := api.devices.map (deviceHashOf api)

/-- One `_meta.hostvars` entry, in the key order the source writes. -/
structure HostVars where
  ansible_host : Option String
  ansible_port : Option String
  interfaces : List InterfaceHash
  vlans : List VlanMap
deriving DecidableEq

/-- The static `all.vars` block. -/
structure AllVars where
  ansible_ssh_user : String
  ansible_network_os : String
  ansible_ssh_private_key_file : String
deriving DecidableEq

/-- The hard-coded connection defaults of `create_inventory_output`. -/
def static_vars : AllVars :=
  { ansible_ssh_user := "vagrant"
  , ansible_network_os := "eos"
  , ansible_ssh_private_key_file := "~/.vagrant.d/insecure_private_key" }

/-- The structured inventory document: `all.hosts`, `all.vars`, and the
`_meta.hostvars` mapping (an insertion-ordered dictionary). -/
structure InventoryOutput where
  hosts : List String
  vars : AllVars
  hostvars : List (String × HostVars)
deriving DecidableEq

/-- The hostvars entry written for one device hash. -/
def hostvarsOf (d : DeviceHash) : HostVars :=
  { ansible_host := d.ansible_ssh_host
  , ansible_port := d.ansible_ssh_port
  , interfaces := d.interfaces
  , vlans := d.vlans }

/-- Python dict assignment `m[k] = v` on an insertion-ordered association
list: replace in place if the key exists, else append. -/
def dictInsert (k : String) (v : HostVars) :
    List (String × HostVars) → List (String × HostVars)
  | [] => [(k, v)]
  | (k', v') :: rest =>
    if k' = k then (k, v) :: rest else (k', v') :: dictInsert k v rest

/-- Python dict lookup `m[k]` on the association list. -/
def lookupKey (k : String) : List (String × HostVars) → Option HostVars
  | [] => none
  | (k', v) :: rest => if k' = k then some v else lookupKey k rest

/-- The loop body of `create_inventory_output`: insert the device's
hostvars under its name, then append the name to `all.hosts`. -/
def addDevice (acc : InventoryOutput) (d : DeviceHash) : InventoryOutput :=
  { acc with
    hostvars := dictInsert d.name (hostvarsOf d) acc.hostvars
  , hosts := acc.hosts ++ [d.name] }

/-- `create_inventory_output`: fold the device hashes into the document. -/
def create_inventory_output (devices : List DeviceHash) : InventoryOutput :=
  devices.foldl addDevice { hosts := [], vars := static_vars, hostvars := [] }

/-- Render an optional string as JSON (null when absent). -/
def optStrJson : Option String → Json
  | none => Json.null
  | some s => Json.str s

/-- Render an optional number as JSON (null when absent). -/
def optNumJson : Option Nat → Json
  | none => Json.null
  | some n => Json.num n

/-- Render an IP-address record. -/
def ipJson (a : IPAddr) : Json := Json.obj [("address", Json.str a.address)]

/-- Render one `interface_hash`. -/
def interfaceJson (h : InterfaceHash) : Json :=
  Json.obj
    [ ("interface_name", Json.str h.interface_name)
    , ("interface_id", Json.num h.interface_id)
    , ("ip_address", Json.arr (h.ip_address.map ipJson)) ]

/-- Render one VLAN map. -/
def vlanJson (v : VlanMap) : Json :=
  Json.obj
    [ ("interface", Json.str v.interface)
    , ("int_id", Json.num v.int_id)
    , ("untagged_vlan", optNumJson v.untagged_vlan)
    , ("tagged_vlans", Json.arr (v.tagged_vlans.map Json.num)) ]

/-- Render one hostvars entry. -/
def hostVarsJson (hv : HostVars) : Json :=
  Json.obj
    [ ("ansible_host", optStrJson hv.ansible_host)
    , ("ansible_port", optStrJson hv.ansible_port)
    , ("interfaces", Json.arr (hv.interfaces.map interfaceJson))
    , ("vlans", Json.arr (hv.vlans.map vlanJson)) ]

/-- Render the static `all.vars` block. -/
def varsJson (v : AllVars) : Json :=
  Json.obj
    [ ("ansible_ssh_user", Json.str v.ansible_ssh_user)
    , ("ansible_network_os", Json.str v.ansible_network_os)
    , ("ansible_ssh_private_key_file", Json.str v.ansible_ssh_private_key_file) ]

/-- Render the full inventory document printed in list mode. -/
def inventoryJson (out : InventoryOutput) : Json :=
  Json.obj
    [ ("all", Json.obj
        [ ("hosts", Json.arr (out.hosts.map Json.str))
        , ("vars", varsJson out.vars) ])
    , ("_meta", Json.obj
        [ ("hostvars", Json.obj (out.hostvars.map (fun p => (p.1, hostVarsJson p.2)))) ]) ]

/-- `_empty_inventory`: the degenerate document of host mode / no mode. -/
def _empty_inventory : Json := Json.obj [("_meta", Json.obj [("hostvars", Json.obj [])])]

/-- Parsed CLI arguments: `--list` flag and optional `--host` string. -/
structure Args where
  list : Bool
  host : Option String

/-- Python truthiness of the `--host` value (`None` and `""` are falsy). -/
def hostTruthy : Option String → Bool
  | none => false
  | some s => !s.isEmpty

/-- The dispatch in `NetboxInventory.__init__`: list mode aggregates and
formats; host mode and the no-flag case print the empty inventory without
any API call.  The returned `Json` is the document printed on success; an
error means the exception propagated and nothing was printed. -/
def netbox_inventory (args : Args) (api : NetboxAPI) : ApiM Json :=
  if args.list then
    bindA (_process_devices api) fun devices =>
      pureA (inventoryJson (create_inventory_output devices))
  else if hostTruthy args.host then pureA _empty_inventory
  else pureA _empty_inventory

/-- The last device of a list bearing a given name (the one whose
hostvars entry survives last-write-wins). -/
def lastNamed (l : List RawDevice) (n : String) : Option RawDevice :=
  l.foldl (fun r x => if x.name = n then some x else r) none

/-- Every endpoint of a trace got a successful HTTP status. -/
def traceOk (api : NetboxAPI) (Δ : List String) : Prop :=
  ∀ e ∈ Δ, statusOk (api.status e) = true

/-- A computation is clean when it only appends to the trace and, whenever
it returns successfully, every call it made had a successful status. -/
def clean {α : Type} (api : NetboxAPI) (m : ApiM α) : Prop :=
  ∀ l₀ res l₁, m l₀ = (res, l₁) →
    ∃ Δ, l₁ = l₀ ++ Δ ∧ ∀ a : α, res = Except.ok a → traceOk api Δ

/-- The mocked server of the spec's end-to-end test: one device `sw1` with
one interface `eth0` (tagged VLAN 100, untagged VLAN 1), one bound IP
address, primary IP `192.0.2.1/24` and custom field `ASN = "22"`. -/
def c1api : NetboxAPI :=
  { devices := [⟨1, "sw1"⟩]
  , interfaces := fun device_id =>
      if device_id = 1 then [⟨10, "eth0", some [⟨100⟩], some ⟨1⟩⟩] else []
  , ipAddresses := fun interface_id =>
      if interface_id = 10 then [⟨"192.0.2.5/24"⟩] else []
  , detail := fun device_id =>
      if device_id = 1 then ⟨some ⟨"192.0.2.1/24"⟩, some ⟨"22"⟩⟩ else ⟨none, none⟩
  , status := fun _ => 200 }

/-- The exact document the spec requires for the end-to-end test. -/
def c1_expected : Json :=
  Json.obj
    [ ("all", Json.obj
        [ ("hosts", Json.arr [Json.str "sw1"])
        , ("vars", Json.obj
            [ ("ansible_ssh_user", Json.str "vagrant")
            , ("ansible_network_os", Json.str "eos")
            , ("ansible_ssh_private_key_file",
               Json.str "~/.vagrant.d/insecure_private_key") ]) ])
    , ("_meta", Json.obj
        [ ("hostvars", Json.obj
            [ ("sw1", Json.obj
                [ ("ansible_host", Json.str "192.0.2.1")
                , ("ansible_port", Json.str "22")
                , ("interfaces", Json.arr
                    [ Json.obj
                        [ ("interface_name", Json.str "eth0")
                        , ("interface_id", Json.num 10)
                        , ("ip_address", Json.arr
                            [Json.obj [("address", Json.str "192.0.2.5/24")]]) ] ])
                , ("vlans", Json.arr
                    [ Json.obj
                        [ ("interface", Json.str "eth0")
                        , ("int_id", Json.num 10)
                        , ("untagged_vlan", Json.num 1)
                        , ("tagged_vlans", Json.arr [Json.num 100]) ] ]) ]) ]) ]) ]

/-- Two device hashes sharing the name `a`: a name collision. -/
def c2devA : DeviceHash := ⟨1, none, none, "a", [], []⟩

/-- Second device hash with the same name `a`. -/
def c2devB : DeviceHash := ⟨2, none, none, "a", [], []⟩

/-- A server whose device detail carries neither a primary IP nor a
custom-fields block. -/
def c4api : NetboxAPI :=
  { devices := [⟨1, "sw1"⟩]
  , interfaces := fun _ => []
  , ipAddresses := fun _ => []
  , detail := fun _ => ⟨none, none⟩
  , status := fun _ => 200 }

/-- An interface with null tagged and untagged VLAN data. -/
def c4itf : Interface := ⟨5, "eth1", none, none⟩

/-- Two devices named `a`: the first has no primary IP, the second has
one, so the surviving hostvars entry for `a` carries an address. -/
def c5api : NetboxAPI :=
  { devices := [⟨1, "a"⟩, ⟨2, "a"⟩]
  , interfaces := fun _ => []
  , ipAddresses := fun _ => []
  , detail := fun device_id =>
      if device_id = 2 then ⟨some ⟨"9.9.9.9/32"⟩, none⟩ else ⟨none, none⟩
  , status := fun _ => 200 }

/-- A single device named `a` with no primary IP. -/
def c5wapi : NetboxAPI :=
  { devices := [⟨1, "a"⟩]
  , interfaces := fun _ => []
  , ipAddresses := fun _ => []
  , detail := fun _ => ⟨none, none⟩
  , status := fun _ => 200 }

/-- Modelled from the spec: the management address is the substring of the
`primary_ip` address before the first `/`. -/
def spec_prefix_before_slash (s : String) : String :=
  String.mk (s.toList.takeWhile (fun c => c ≠ '/'))

/-- A server whose device detail has primary IP `10.0.0.1/24`. -/
def c6api : NetboxAPI :=
  { devices := [⟨1, "r1"⟩]
  , interfaces := fun _ => []
  , ipAddresses := fun _ => []
  , detail := fun _ => ⟨some ⟨"10.0.0.1/24"⟩, none⟩
  , status := fun _ => 200 }

/-- A server with one interface carrying no VLAN data at all. -/
def c7api : NetboxAPI :=
  { devices := [⟨1, "sw1"⟩]
  , interfaces := fun _ => [⟨3, "eth2", none, none⟩]
  , ipAddresses := fun _ => []
  , detail := fun _ => ⟨none, none⟩
  , status := fun _ => 200 }

/-- A server whose every response is an HTTP 404. -/
def c9api : NetboxAPI :=
  { devices := [⟨1, "sw1"⟩]
  , interfaces := fun _ => []
  , ipAddresses := fun _ => []
  , detail := fun _ => ⟨none, none⟩
  , status := fun _ => 404 }

/-- The endpoints a list-mode run against `c1api` calls, in order. -/
def c1trace : List String :=
  ["dcim/devices", "dcim/interfaces/?device_id=1", "dcim/interfaces/?device_id=1",
   "dcim/devices/1", "dcim/devices/1", "ipam/ip-addresses/?interface_id=10"]

/-- Inversion for `bindA` on a successful run. -/
theorem bindA_okE {α β : Type} {m : ApiM α} {f : α → ApiM β} {l l₂ : List String} {b : β}
    (h : bindA m f l = (Except.ok b, l₂)) :
    ∃ a l₁, m l = (Except.ok a, l₁) ∧ f a l₁ = (Except.ok b, l₂) := by
  unfold bindA at h
  split at h
  · rename_i a l₁ heq
    exact ⟨a, l₁, heq, h⟩
  · rename_i e l₁ heq
    simp at h

/-- Inversion for `apiCall` on a successful run. -/
theorem apiCall_okE {α : Type} {api : NetboxAPI} {e : String} {d : α} {l l' : List String}
    {v : α} (h : apiCall api e d l = (Except.ok v, l')) :
    v = d ∧ l' = l ++ [e] ∧ statusOk (api.status e) = true := by
  unfold apiCall at h
  by_cases hs : statusOk (api.status e) = true
  · simp only [hs, if_true, Prod.mk.injEq, Except.ok.injEq] at h
    exact ⟨h.1.symm, h.2.symm, hs⟩
  · simp only [hs, if_false, Bool.false_eq_true, Prod.mk.injEq] at h
    simp at h

/-- On a successful run, `mapA f` computes the pure map of the
per-element success values. -/
theorem mapA_okE {α β : Type} {f : α → ApiM β} {g : α → β}
    (hf : ∀ a l res l', f a l = (Except.ok res, l') → res = g a) :
    ∀ (xs : List α) (l : List String) (res : List β) (l' : List String),
      mapA f xs l = (Except.ok res, l') → res = xs.map g := by
  intro xs
  induction xs with
  | nil =>
    intro l res l' h
    unfold mapA at h
    simp only [pureA, Prod.mk.injEq, Except.ok.injEq] at h
    simp [← h.1]
  | cons a as ih =>
    intro l res l' h
    unfold mapA at h
    obtain ⟨b, l₁, h1, h2⟩ := bindA_okE h
    obtain ⟨bs, l₂, h3, h4⟩ := bindA_okE h2
    have hb := hf a l b l₁ h1
    have hbs := ih l₁ bs l₂ h3
    simp only [pureA, Prod.mk.injEq, Except.ok.injEq] at h4
    subst hb hbs
    simp [← h4.1]

/-- On success, `_device_interfaces` returns the server's interface list
and logs exactly its endpoint. -/
theorem device_interfaces_okE {api : NetboxAPI} {did : Nat} {l l' : List String}
    {v : List Interface} (h : _device_interfaces api did l = (Except.ok v, l')) :
    v = api.interfaces did := by
  unfold _device_interfaces at h
  exact (apiCall_okE h).1

/-- On success, `_interface_ip` returns the server's IP list. -/
theorem interface_ip_okE {api : NetboxAPI} {iid : Nat} {l l' : List String}
    {v : List IPAddr} (h : _interface_ip api iid l = (Except.ok v, l')) :
    v = api.ipAddresses iid := by
  unfold _interface_ip at h
  exact (apiCall_okE h).1

/-- On success, `_device_primary_ip` returns the stripped primary IP of
the device detail. -/
theorem device_primary_ip_okE {api : NetboxAPI} {did : Nat} {l l' : List String}
    {v : Option String} (h : _device_primary_ip api did l = (Except.ok v, l')) :
    v = primaryIpOf (api.detail did) := by
  unfold _device_primary_ip at h
  obtain ⟨d, l₁, h1, h2⟩ := bindA_okE h
  obtain ⟨hd, -, -⟩ := apiCall_okE h1
  simp only [pureA, Prod.mk.injEq, Except.ok.injEq] at h2
  rw [← h2.1, hd]

/-- On success, `_device_ssh_port` returns the `ASN` custom field of the
device detail. -/
theorem device_ssh_port_okE {api : NetboxAPI} {did : Nat} {l l' : List String}
    {v : Option String} (h : _device_ssh_port api did l = (Except.ok v, l')) :
    v = sshPortOf (api.detail did) := by
  unfold _device_ssh_port at h
  obtain ⟨d, l₁, h1, h2⟩ := bindA_okE h
  obtain ⟨hd, -, -⟩ := apiCall_okE h1
  simp only [pureA, Prod.mk.injEq, Except.ok.injEq] at h2
  rw [← h2.1, hd]

/-- On success, `_process_interface_vlans` maps `vlanMapOf` over the
server's interface list. -/
theorem process_interface_vlans_okE {api : NetboxAPI} {did : Nat} {l l' : List String}
    {v : List VlanMap} (h : _process_interface_vlans api did l = (Except.ok v, l')) :
    v = (api.interfaces did).map vlanMapOf := by
  unfold _process_interface_vlans at h
  obtain ⟨itfs, l₁, h1, h2⟩ := bindA_okE h
  simp only [pureA, Prod.mk.injEq, Except.ok.injEq] at h2
  rw [← h2.1, device_interfaces_okE h1]

/-- On success, `processInterface` pairs the interface with its fetched
IP addresses. -/
theorem processInterface_okE {api : NetboxAPI} {itf : Interface} {l l' : List String}
    {v : InterfaceHash} (h : processInterface api itf l = (Except.ok v, l')) :
    v = interfaceHashOf itf (api.ipAddresses itf.id) := by
  unfold processInterface at h
  obtain ⟨ips, l₁, h1, h2⟩ := bindA_okE h
  simp only [pureA, Prod.mk.injEq, Except.ok.injEq] at h2
  rw [← h2.1, interface_ip_okE h1]

/-- On success, `processDevice` builds exactly `deviceHashOf`. -/
theorem processDevice_okE {api : NetboxAPI} {device : RawDevice} {l l' : List String}
    {v : DeviceHash} (h : processDevice api device l = (Except.ok v, l')) :
    v = deviceHashOf api device := by
  unfold processDevice at h
  obtain ⟨itfs, l₁, h1, h2⟩ := bindA_okE h
  obtain ⟨vlans, l₂, h3, h4⟩ := bindA_okE h2
  obtain ⟨ip, l₃, h5, h6⟩ := bindA_okE h4
  obtain ⟨port, l₄, h7, h8⟩ := bindA_okE h6
  obtain ⟨ints, l₅, h9, h10⟩ := bindA_okE h8
  have hitfs := device_interfaces_okE h1
  have hvlans := process_interface_vlans_okE h3
  have hip := device_primary_ip_okE h5
  have hport := device_ssh_port_okE h7
  have hints := mapA_okE (fun a l res l' ha => processInterface_okE ha) itfs l₄ ints l₅ h9
  simp only [pureA, Prod.mk.injEq, Except.ok.injEq] at h10
  rw [← h10.1]
  subst hitfs hvlans hip hport hints
  rfl

/-- On success, `_process_devices` returns `devices_val`. -/
theorem process_devices_okE {api : NetboxAPI} {l l' : List String}
    {v : List DeviceHash} (h : _process_devices api l = (Except.ok v, l')) :
    v = devices_val api := by
  unfold _process_devices at h
  obtain ⟨devices, l₁, h1, h2⟩ := bindA_okE h
  have hdev : devices = api.devices := by
    unfold _device_list at h1
    exact (apiCall_okE h1).1
  have := mapA_okE (fun a l res l' ha => processDevice_okE ha) devices l₁ v l' h2
  rw [this, hdev]
  rfl

/-- Python `split` never returns an empty list of segments. -/
theorem pySplit_ne_nil (sep : Char) (cs : List Char) : pySplit sep cs ≠ [] := by
  cases cs with
  | nil => simp [pySplit]
  | cons c rest =>
    unfold pySplit
    split
    · simp
    · split <;> simp

/-- The first segment of a single-character split is the prefix of
characters before the first separator. -/
theorem pySplit_headD (sep : Char) (cs : List Char) :
    (pySplit sep cs).headD [] = cs.takeWhile (fun c => c ≠ sep) := by
  induction cs with
  | nil => simp [pySplit]
  | cons c rest ih =>
    by_cases hc : c = sep
    · subst hc
      simp [pySplit, List.takeWhile_cons]
    · rcases hps : pySplit sep rest with - | ⟨g, gs⟩
      · exact absurd hps (pySplit_ne_nil sep rest)
      · rw [hps] at ih
        simp only [List.headD_cons] at ih
        simp [pySplit, hc, hps, List.takeWhile_cons, ih]

/-- Key membership after a Python-dict insertion. -/
theorem keysMem_dictInsert (k : String) (v : HostVars) (l : List (String × HostVars))
    (n : String) :
    n ∈ (dictInsert k v l).map Prod.fst ↔ n = k ∨ n ∈ l.map Prod.fst := by
  induction l with
  | nil => simp [dictInsert]
  | cons p rest ih =>
    rcases p with ⟨k', v'⟩
    by_cases hk : k' = k
    · subst hk
      simp [dictInsert]
    · simp only [dictInsert, if_neg hk, List.map_cons, List.mem_cons, ih]
      tauto

/-- Inserting a fresh key grows the dictionary by one entry. -/
theorem length_dictInsert_of_not_mem {k : String} {v : HostVars}
    {l : List (String × HostVars)} (h : k ∉ l.map Prod.fst) :
    (dictInsert k v l).length = l.length + 1 := by
  induction l with
  | nil => simp [dictInsert]
  | cons p rest ih =>
    rcases p with ⟨k', v'⟩
    simp only [List.map_cons, List.mem_cons] at h
    push_neg at h
    have hk : k' ≠ k := fun hh => h.1 hh.symm
    simp [dictInsert, hk, ih h.2]

/-- Lookup after a Python-dict insertion. -/
theorem lookupKey_dictInsert (n k : String) (v : HostVars)
    (l : List (String × HostVars)) :
    lookupKey n (dictInsert k v l) = if k = n then some v else lookupKey n l := by
  induction l with
  | nil => simp [dictInsert, lookupKey]
  | cons p rest ih =>
    rcases p with ⟨k', v'⟩
    by_cases h1 : k' = k
    · subst h1
      by_cases h2 : k' = n <;> simp [dictInsert, lookupKey, h2]
    · by_cases h2 : k' = n
      · subst h2
        have hk : k ≠ k' := fun hh => h1 hh.symm
        simp [dictInsert, lookupKey, h1, hk]
      · simp [dictInsert, lookupKey, h1, h2, ih]

/-- The formatter's fold appends device names to the hosts list in order. -/
theorem hosts_foldl (devices : List DeviceHash) (acc : InventoryOutput) :
    (devices.foldl addDevice acc).hosts = acc.hosts ++ devices.map (fun d => d.name) := by
  induction devices generalizing acc with
  | nil => simp
  | cons d ds ih =>
    simp only [List.foldl_cons, List.map_cons]
    rw [ih]
    simp [addDevice, List.append_assoc]

/-- A name is a hostvars key of the fold result iff it was already a key
or is the name of some folded device. -/
theorem keys_foldl (devices : List DeviceHash) (acc : InventoryOutput) (n : String) :
    n ∈ (devices.foldl addDevice acc).hostvars.map Prod.fst ↔
      n ∈ acc.hostvars.map Prod.fst ∨ n ∈ devices.map (fun d => d.name) := by
  induction devices generalizing acc with
  | nil => simp
  | cons d ds ih =>
    simp only [List.foldl_cons, List.map_cons, List.mem_cons]
    rw [ih]
    have : (addDevice acc d).hostvars = dictInsert d.name (hostvarsOf d) acc.hostvars := rfl
    rw [this, keysMem_dictInsert]
    tauto

/-- With pairwise-distinct device names, the fold adds exactly one
hostvars entry per device. -/
theorem length_foldl_nodup :
    ∀ (devices : List DeviceHash) (acc : InventoryOutput),
      (devices.map (fun d => d.name)).Nodup →
      (∀ d ∈ devices, d.name ∉ acc.hostvars.map Prod.fst) →
      (devices.foldl addDevice acc).hostvars.length =
        acc.hostvars.length + devices.length := by
  intro devices
  induction devices with
  | nil =>
    intro acc _ _
    simp
  | cons d ds ih =>
    intro acc hnd hmem
    simp only [List.map_cons, List.nodup_cons] at hnd
    have hside : ∀ d' ∈ ds, d'.name ∉ (addDevice acc d).hostvars.map Prod.fst := by
      intro d' hd' hcon
      have heq : (addDevice acc d).hostvars = dictInsert d.name (hostvarsOf d) acc.hostvars := rfl
      rw [heq, keysMem_dictInsert] at hcon
      rcases hcon with h | h
      · exact hnd.1 (h ▸ List.mem_map_of_mem (fun x => x.name) hd')
      · exact hmem d' (List.mem_cons_of_mem d hd') h
    have h1 : (addDevice acc d).hostvars.length = acc.hostvars.length + 1 := by
      have heq : (addDevice acc d).hostvars = dictInsert d.name (hostvarsOf d) acc.hostvars := rfl
      rw [heq]
      exact length_dictInsert_of_not_mem (hmem d (List.mem_cons_self d ds))
    simp only [List.foldl_cons]
    rw [ih (addDevice acc d) hnd.2 hside, h1, List.length_cons]
    omega

/-- Hostvars lookup after the fold is a left fold keeping the last
matching device: the formal statement of last-write-wins. -/
theorem lookup_foldl (devices : List DeviceHash) (acc : InventoryOutput) (n : String) :
    lookupKey n (devices.foldl addDevice acc).hostvars =
      devices.foldl (fun r d => if d.name = n then some (hostvarsOf d) else r)
        (lookupKey n acc.hostvars) := by
  induction devices generalizing acc with
  | nil => simp
  | cons d ds ih =>
    simp only [List.foldl_cons]
    rw [ih]
    congr 1
    have heq : (addDevice acc d).hostvars = dictInsert d.name (hostvarsOf d) acc.hostvars := rfl
    rw [heq]
    exact lookupKey_dictInsert n d.name (hostvarsOf d) acc.hostvars

/-- Selecting the last device satisfying a name test commutes with
mapping a function over the accumulated value. -/
theorem foldl_pick_map (g : RawDevice → HostVars) (n : String) :
    ∀ (l : List RawDevice) (acc : Option RawDevice),
      l.foldl (fun r x => if x.name = n then some (g x) else r) (acc.map g) =
        (l.foldl (fun r x => if x.name = n then some x else r) acc).map g := by
  intro l
  induction l with
  | nil =>
    intro acc
    rfl
  | cons x xs ih =>
    intro acc
    simp only [List.foldl_cons]
    by_cases hx : x.name = n
    · rw [if_pos hx, if_pos hx]
      exact ih (some x)
    · rw [if_neg hx, if_neg hx]
      exact ih acc

/-- C3: the formatter processes devices in the order received, appending
each device's name to `all.hosts`; the hostvars entry stored under a name
is the one of the last device bearing that name (last-write-wins, no
deduplication, no error). -/
theorem c3_order_last_write_wins (devices : List DeviceHash) :
    (create_inventory_output devices).hosts = devices.map (fun d => d.name) ∧
    ∀ n, lookupKey n (create_inventory_output devices).hostvars =
      devices.foldl (fun r d => if d.name = n then some (hostvarsOf d) else r) none := by
  constructor
  · unfold create_inventory_output
    rw [hosts_foldl]
    rfl
  · intro n
    unfold create_inventory_output
    rw [lookup_foldl]
    rfl

/-- C2 (amended): when device names are pairwise distinct, `all.hosts` and
the `_meta.hostvars` keys have equal length and the same members; name
membership agrees unconditionally, but the length equality needs
distinctness. -/
theorem c2_bijection_amended (devices : List DeviceHash)
    (hnd : (devices.map (fun d => d.name)).Nodup) :
    (create_inventory_output devices).hosts.length =
      (create_inventory_output devices).hostvars.length ∧
    ∀ n, n ∈ (create_inventory_output devices).hosts ↔
      n ∈ (create_inventory_output devices).hostvars.map Prod.fst := by
  constructor
  · unfold create_inventory_output
    rw [hosts_foldl, length_foldl_nodup devices _ hnd (by intro d _ hc; simp at hc)]
    simp
  · intro n
    unfold create_inventory_output
    rw [hosts_foldl, keys_foldl]
    simp

/-- Witness for the amended C2 at a one-device list. -/
theorem c2_bijection_witness :
    (create_inventory_output [c2devA]).hosts.length =
      (create_inventory_output [c2devA]).hostvars.length :=
  (c2_bijection_amended [c2devA] (by decide)).1

/-- C2 as frozen is false: two devices sharing the name `a` give two
entries in `all.hosts` but a single hostvars entry. -/
theorem c2_bijection_counterexample :
    ¬ ((create_inventory_output [c2devA, c2devB]).hosts.length =
        (create_inventory_output [c2devA, c2devB]).hostvars.length ∧
       ∀ n, n ∈ (create_inventory_output [c2devA, c2devB]).hosts ↔
         n ∈ (create_inventory_output [c2devA, c2devB]).hostvars.map Prod.fst) := by
  intro h
  exact absurd h.1 (by decide)

/-- Returning without calling is clean. -/
theorem clean_pureA {α : Type} (api : NetboxAPI) (a : α) : clean api (pureA a) := by
  intro l₀ res l₁ h
  injection h with h1 h2
  refine ⟨[], by simp [← h2], ?_⟩
  intro b _ e he
  simp at he

/-- Sequencing clean computations is clean. -/
theorem clean_bindA {α β : Type} {api : NetboxAPI} {m : ApiM α} {f : α → ApiM β}
    (hm : clean api m) (hf : ∀ a, clean api (f a)) : clean api (bindA m f) := by
  intro l₀ res l₁ h
  unfold bindA at h
  split at h
  · rename_i a lm heq
    obtain ⟨Δ₁, hΔ₁, hok₁⟩ := hm l₀ (Except.ok a) lm heq
    obtain ⟨Δ₂, hΔ₂, hok₂⟩ := hf a lm res l₁ h
    refine ⟨Δ₁ ++ Δ₂, by rw [hΔ₂, hΔ₁, List.append_assoc], ?_⟩
    intro b hb e he
    rcases List.mem_append.mp he with h' | h'
    · exact hok₁ a rfl e h'
    · exact hok₂ b hb e h'
  · rename_i e lm heq
    injection h with h1 h2
    obtain ⟨Δ₁, hΔ₁, -⟩ := hm l₀ (Except.error e) lm heq
    refine ⟨Δ₁, by rw [← h2, hΔ₁], ?_⟩
    intro b hb
    rw [← h1] at hb
    simp at hb

/-- One HTTP GET is clean: it logs its endpoint, and succeeds only when
that endpoint's status is successful. -/
theorem clean_apiCall {α : Type} (api : NetboxAPI) (e : String) (d : α) :
    clean api (apiCall api e d) := by
  intro l₀ res l₁ h
  unfold apiCall at h
  injection h with h1 h2
  refine ⟨[e], by rw [← h2], ?_⟩
  intro a ha e' he'
  simp at he'
  rw [he']
  by_cases hs : statusOk (api.status e) = true
  · exact hs
  · rw [← h1] at ha
    simp [hs] at ha

/-- Sequentially mapping a clean action is clean. -/
theorem clean_mapA {α β : Type} {api : NetboxAPI} {f : α → ApiM β}
    (hf : ∀ a, clean api (f a)) : ∀ xs : List α, clean api (mapA f xs) := by
  intro xs
  induction xs with
  | nil => exact clean_pureA api []
  | cons a as ih =>
    exact clean_bindA (hf a) fun b => clean_bindA ih fun bs => clean_pureA api (b :: bs)

/-- The interface-list call is clean. -/
theorem clean_device_interfaces (api : NetboxAPI) (did : Nat) :
    clean api (_device_interfaces api did) :=
  clean_apiCall api (interfacesEndpoint did) (api.interfaces did)

/-- The IP-address call is clean. -/
theorem clean_interface_ip (api : NetboxAPI) (iid : Nat) :
    clean api (_interface_ip api iid) :=
  clean_apiCall api (ipEndpoint iid) (api.ipAddresses iid)

/-- The primary-IP lookup is clean. -/
theorem clean_device_primary_ip (api : NetboxAPI) (did : Nat) :
    clean api (_device_primary_ip api did) :=
  clean_bindA (clean_apiCall api (deviceEndpoint did) (api.detail did))
    fun d => clean_pureA api (primaryIpOf d)

/-- The SSH-port lookup is clean. -/
theorem clean_device_ssh_port (api : NetboxAPI) (did : Nat) :
    clean api (_device_ssh_port api did) :=
  clean_bindA (clean_apiCall api (deviceEndpoint did) (api.detail did))
    fun d => clean_pureA api (sshPortOf d)

/-- The VLAN pass is clean. -/
theorem clean_process_interface_vlans (api : NetboxAPI) (did : Nat) :
    clean api (_process_interface_vlans api did) :=
  clean_bindA (clean_device_interfaces api did)
    fun itfs => clean_pureA api (itfs.map vlanMapOf)

/-- The per-interface enrichment is clean. -/
theorem clean_processInterface (api : NetboxAPI) (itf : Interface) :
    clean api (processInterface api itf) :=
  clean_bindA (clean_interface_ip api itf.id)
    fun ips => clean_pureA api (interfaceHashOf itf ips)

/-- The per-device enrichment is clean. -/
theorem clean_processDevice (api : NetboxAPI) (device : RawDevice) :
    clean api (processDevice api device) :=
  clean_bindA (clean_device_interfaces api device.id) fun itfs =>
  clean_bindA (clean_process_interface_vlans api device.id) fun _ =>
  clean_bindA (clean_device_primary_ip api device.id) fun _ =>
  clean_bindA (clean_device_ssh_port api device.id) fun _ =>
  clean_bindA (clean_mapA (clean_processInterface api) itfs) fun _ =>
  clean_pureA api _

/-- The whole aggregation is clean. -/
theorem clean_process_devices (api : NetboxAPI) : clean api (_process_devices api) :=
  clean_bindA (clean_apiCall api devicesEndpoint api.devices)
    fun devices => clean_mapA (clean_processDevice api) devices

/-- The whole program is clean, in every mode. -/
theorem clean_netbox (args : Args) (api : NetboxAPI) :
    clean api (netbox_inventory args api) := by
  cases hl : args.list with
  | true =>
    unfold netbox_inventory
    rw [hl]
    simp only [if_true]
    exact clean_bindA (clean_process_devices api)
      fun devices => clean_pureA api (inventoryJson (create_inventory_output devices))
  | false =>
    unfold netbox_inventory
    rw [hl]
    simp only [Bool.false_eq_true, if_false]
    rw [ite_self]
    exact clean_pureA api _empty_inventory

/-- C1: against the spec's mocked server (one device `sw1`, one interface
`eth0` with tagged VLAN 100 and untagged VLAN 1, one bound address
`192.0.2.5/24`, primary IP `192.0.2.1/24`, custom field `ASN = "22"`),
list mode produces exactly the required document. -/
theorem c1_end_to_end :
    (netbox_inventory ⟨true, none⟩ c1api []).1 = Except.ok c1_expected := rfl

/-- C4: a merely-missing optional field never fails the aggregation: a
null `primary_ip` yields a null management address, an absent
custom-fields block yields a null SSH port, and null or empty VLAN data
yields an empty tagged list and a null untagged VLAN. -/
theorem c4_missing_optional_fields (api : NetboxAPI) (did : Nat) (itf : Interface)
    (h1 : (api.detail did).primary_ip = none)
    (h2 : (api.detail did).custom_fields = none)
    (h3 : itf.tagged_vlans = none ∨ itf.tagged_vlans = some [])
    (h4 : itf.untagged_vlan = none) :
    (∀ v l, _device_primary_ip api did [] = (Except.ok v, l) → v = none) ∧
    (∀ v l, _device_ssh_port api did [] = (Except.ok v, l) → v = none) ∧
    (vlanMapOf itf).tagged_vlans = [] ∧
    (vlanMapOf itf).untagged_vlan = none := by
  refine ⟨?_, ?_, ?_, ?_⟩
  · intro v l h
    rw [device_primary_ip_okE h]
    unfold primaryIpOf
    rw [h1]
  · intro v l h
    rw [device_ssh_port_okE h]
    unfold sshPortOf
    rw [h2]
  · rcases h3 with h3 | h3 <;> simp [vlanMapOf, h3]
  · simp [vlanMapOf, h4]

/-- Witness for C4 at a server returning a fully-absent device detail and
an interface with null VLAN data. -/
theorem c4_missing_optional_fields_witness :
    (vlanMapOf c4itf).tagged_vlans = [] ∧ (vlanMapOf c4itf).untagged_vlan = none := by
  have h := c4_missing_optional_fields c4api 1 c4itf rfl rfl (Or.inl rfl) rfl
  exact ⟨h.2.2.1, h.2.2.2⟩

/-- C5 (amended): a device with a null primary IP is not skipped — its
name reaches `all.hosts` and its name has a hostvars entry; that entry has
a null `ansible_host` provided the device is the last one bearing its name
(in particular whenever names are unique). -/
theorem c5_null_primary_amended (api : NetboxAPI) (d : RawDevice) (dl : List DeviceHash)
    (l : List String)
    (hrun : _process_devices api [] = (Except.ok dl, l))
    (hmem : d ∈ api.devices)
    (hnull : (api.detail d.id).primary_ip = none)
    (hlast : lastNamed api.devices d.name = some d) :
    d.name ∈ (create_inventory_output dl).hosts ∧
    lookupKey d.name (create_inventory_output dl).hostvars =
      some (hostvarsOf (deviceHashOf api d)) ∧
    (hostvarsOf (deviceHashOf api d)).ansible_host = none := by
  have hdl : dl = devices_val api := process_devices_okE hrun
  subst hdl
  refine ⟨?_, ?_, ?_⟩
  · unfold create_inventory_output
    rw [hosts_foldl]
    simp only [List.nil_append]
    unfold devices_val
    rw [List.map_map]
    exact List.mem_map_of_mem _ hmem
  · unfold create_inventory_output
    rw [lookup_foldl]
    unfold devices_val
    rw [List.foldl_map]
    have h2 := foldl_pick_map (fun y => hostvarsOf (deviceHashOf api y)) d.name
      api.devices none
    refine h2.trans ?_
    have h3 : api.devices.foldl (fun r x => if x.name = d.name then some x else r) none =
        lastNamed api.devices d.name := rfl
    rw [h3, hlast]
    rfl
  · show primaryIpOf (api.detail d.id) = none
    unfold primaryIpOf
    rw [hnull]

/-- Witness for the amended C5 at a one-device server with no primary IP. -/
theorem c5_null_primary_witness :
    (hostvarsOf (deviceHashOf c5wapi ⟨1, "a"⟩)).ansible_host = none :=
  (c5_null_primary_amended c5wapi ⟨1, "a"⟩ (devices_val c5wapi)
    ["dcim/devices", "dcim/interfaces/?device_id=1", "dcim/interfaces/?device_id=1",
     "dcim/devices/1", "dcim/devices/1"] rfl (by decide) rfl rfl).2.2

/-- C5 as frozen is false under a name collision: device 1 named `a` has a
null primary IP, yet the hostvars entry stored under `a` (written last by
device 2) carries an address. -/
theorem c5_null_primary_counterexample :
    (⟨1, "a"⟩ : RawDevice) ∈ c5api.devices ∧
    (c5api.detail 1).primary_ip = none ∧
    (_process_devices c5api []).1 = Except.ok (devices_val c5api) ∧
    ¬ ∃ hv, lookupKey "a" (create_inventory_output (devices_val c5api)).hostvars = some hv ∧
        hv.ansible_host = none := by
  refine ⟨by decide, rfl, rfl, ?_⟩
  rintro ⟨hv, h1, h2⟩
  have he : lookupKey "a" (create_inventory_output (devices_val c5api)).hostvars =
      some (hostvarsOf (deviceHashOf c5api ⟨2, "a"⟩)) := rfl
  rw [he] at h1
  injection h1 with h1'
  rw [← h1'] at h2
  exact absurd h2 (by decide)

/-- C6: when the device detail has a primary IP whose address contains a
`/` netmask suffix, the extracted management address is the substring
before the first `/`. -/
theorem c6_strip_netmask (api : NetboxAPI) (did : Nat) (p : IPAddr)
    (hp : (api.detail did).primary_ip = some p)
    (_hslash : '/' ∈ p.address.toList) :
    ∀ v l, _device_primary_ip api did [] = (Except.ok v, l) →
      v = some (spec_prefix_before_slash p.address) := by
  intro v l h
  rw [device_primary_ip_okE h]
  unfold primaryIpOf
  rw [hp]
  show some (stripMask p.address) = some (spec_prefix_before_slash p.address)
  unfold stripMask spec_prefix_before_slash
  rw [pySplit_headD]

/-- Witness for C6: `10.0.0.1/24` is stripped to `10.0.0.1`. -/
theorem c6_strip_netmask_witness :
    some "10.0.0.1" = some (spec_prefix_before_slash "10.0.0.1/24") :=
  c6_strip_netmask c6api 1 ⟨"10.0.0.1/24"⟩ rfl (by decide) (some "10.0.0.1")
    ["dcim/devices/1"] rfl

/-- C7: when every interface of a device has no VLAN data (null or empty
tagged list, null untagged VLAN), every produced `vlans` entry has an
empty tagged list and a null untagged VLAN. -/
theorem c7_no_vlan_data (api : NetboxAPI) (did : Nat)
    (hitf : ∀ itf ∈ api.interfaces did,
      (itf.tagged_vlans = none ∨ itf.tagged_vlans = some []) ∧ itf.untagged_vlan = none) :
    ∀ res l, _process_interface_vlans api did [] = (Except.ok res, l) →
      ∀ v ∈ res, v.tagged_vlans = [] ∧ v.untagged_vlan = none := by
  intro res l h v hv
  rw [process_interface_vlans_okE h] at hv
  obtain ⟨itf, hitf', rfl⟩ := List.mem_map.mp hv
  obtain ⟨ht, hu⟩ := hitf itf hitf'
  constructor
  · rcases ht with ht | ht <;> simp [vlanMapOf, ht]
  · simp [vlanMapOf, hu]

/-- Witness for C7 at a one-interface server with no VLAN data. -/
theorem c7_no_vlan_data_witness :
    (vlanMapOf ⟨3, "eth2", none, none⟩).tagged_vlans = [] ∧
    (vlanMapOf ⟨3, "eth2", none, none⟩).untagged_vlan = none :=
  c7_no_vlan_data c7api 1 (by decide) ((c7api.interfaces 1).map vlanMapOf)
    ["dcim/interfaces/?device_id=1"] rfl (vlanMapOf ⟨3, "eth2", none, none⟩) (by decide)

/-- C8: without `--list` (whether or not `--host` is given), the program
emits exactly the empty inventory document and performs no API call. -/
theorem c8_host_mode_empty (args : Args) (api : NetboxAPI) (h : args.list = false) :
    netbox_inventory args api [] = (Except.ok _empty_inventory, []) := by
  unfold netbox_inventory
  rw [h]
  simp only [Bool.false_eq_true, if_false]
  rw [ite_self]
  rfl

/-- Witness for C8 with a `--host` argument present. -/
theorem c8_host_mode_empty_witness :
    netbox_inventory ⟨false, some "anything"⟩ c1api [] = (Except.ok _empty_inventory, []) :=
  c8_host_mode_empty ⟨false, some "anything"⟩ c1api rfl

/-- C9: if any call performed during a run had a non-success HTTP status,
the run's result is an error — no inventory document, not even a partial
one, is produced. -/
theorem c9_fail_fast (args : Args) (api : NetboxAPI)
    (h : ∃ e ∈ (netbox_inventory args api []).2, statusOk (api.status e) = false) :
    ∃ s, (netbox_inventory args api []).1 = Except.error s := by
  obtain ⟨e, he, hbad⟩ := h
  rcases hrun : netbox_inventory args api [] with ⟨res, l⟩
  rw [hrun] at he
  obtain ⟨Δ, hΔ, hok⟩ := clean_netbox args api [] res l hrun
  cases res with
  | ok a =>
    have hgood : statusOk (api.status e) = true :=
      hok a rfl e (by rw [hΔ] at he; simpa using he)
    rw [hbad] at hgood
    simp at hgood
  | error s => exact ⟨s, rfl⟩

/-- Witness for C9: a server answering 404 fails the run at its first
call. -/
theorem c9_fail_fast_witness :
    ∃ s, (netbox_inventory ⟨true, none⟩ c9api []).1 = Except.error s :=
  c9_fail_fast ⟨true, none⟩ c9api ⟨"dcim/devices", by decide, by decide⟩

/-- C10: with the interface list a function of the device id (as in this
model, where each of the two passes fetches the same list), every output
device has `interfaces` and `vlans` of equal length, aligned index by
index on interface id and name. -/
theorem c10_interfaces_vlans_aligned (api : NetboxAPI) (dl : List DeviceHash)
    (l : List String) (hrun : _process_devices api [] = (Except.ok dl, l)) :
    ∀ d ∈ dl, d.interfaces.length = d.vlans.length ∧
      ∀ (i : Nat) (hi : i < d.interfaces.length) (hv : i < d.vlans.length),
        (d.interfaces.get ⟨i, hi⟩).interface_id = (d.vlans.get ⟨i, hv⟩).int_id ∧
        (d.interfaces.get ⟨i, hi⟩).interface_name = (d.vlans.get ⟨i, hv⟩).interface := by
  intro d hd
  rw [process_devices_okE hrun] at hd
  unfold devices_val at hd
  obtain ⟨x, hx, rfl⟩ := List.mem_map.mp hd
  refine ⟨by simp [deviceHashOf], ?_⟩
  intro i hi hv
  constructor
  · show (((api.interfaces x.id).map
        (fun itf => interfaceHashOf itf (api.ipAddresses itf.id))).get ⟨i, hi⟩).interface_id =
      (((api.interfaces x.id).map vlanMapOf).get ⟨i, hv⟩).int_id
    simp [List.get_eq_getElem, List.getElem_map, interfaceHashOf, vlanMapOf]
  · show (((api.interfaces x.id).map
        (fun itf => interfaceHashOf itf (api.ipAddresses itf.id))).get ⟨i, hi⟩).interface_name =
      (((api.interfaces x.id).map vlanMapOf).get ⟨i, hv⟩).interface
    simp [List.get_eq_getElem, List.getElem_map, interfaceHashOf, vlanMapOf]

/-- Witness for C10 at the end-to-end mock server. -/
theorem c10_interfaces_vlans_aligned_witness :
    (deviceHashOf c1api ⟨1, "sw1"⟩).interfaces.length =
      (deviceHashOf c1api ⟨1, "sw1"⟩).vlans.length :=
  (c10_interfaces_vlans_aligned c1api (devices_val c1api) c1trace rfl
    (deviceHashOf c1api ⟨1, "sw1"⟩) (by decide)).1

end NetboxInv
